import Mathlib

/-!
Shallow embedding of the whatsapp-ai-backend core (src/server.js, v6.1):
the cart lifecycle webhooks, the cron reminder sweep, and the WhatsApp
conversation webhook, together with proofs of the behavioural claims.
-/

namespace Backend

/-- The reminder lifecycle state of an abandoned cart
(`estadoMensaje` field in Firestore: `'pendiente'` / `'recordatorio_enviado'`). -/
inductive EstadoMensaje
  | pendiente
  | recordatorio_enviado
deriving DecidableEq

/-- One line item of a cart (the sweep only reads `nombre`). -/
structure Producto where
  nombre : String
deriving DecidableEq

/-- A document of the `carritosAbandonados` collection. -/
structure Cart where
  tiendaId : String
  cliente : String
  productos : List Producto
  urlRecuperacion : String
  timestamp : Int
  recuperado : Bool
  estadoMensaje : EstadoMensaje
deriving DecidableEq

/-- A document of the `clientes` collection (a tenant / shop). -/
structure Shop where
  nombre : String
  whatsapp : String
  telefonoAlertas : Option String
  faqs : Option String
deriving DecidableEq

/-- A message of a conversation's `mensajes` subcollection. -/
structure Msg where
  author : String
  text : String
deriving DecidableEq

/-- A document of the `conversaciones` collection, keyed by conversation id. -/
structure Conversation where
  tiendaId : String
  mensajes : List Msg
deriving DecidableEq

/-- The Firestore state the core touches: tenants (with doc ids), abandoned
carts (positional doc references) and conversations (keyed by id). -/
structure Store where
  clientes : List (String × Shop)
  carritos : List Cart
  conversaciones : List (String × Conversation)
deriving DecidableEq

/-- An outbound Twilio message (`twilioClient.messages.create`). -/
structure SendEv where
  fromAddr : String
  toAddr : String
  body : String
deriving DecidableEq

/-- An HTTP response sent back to the webhook caller. -/
structure HttpResp where
  status : Nat
  body : String
deriving DecidableEq

/-- The fixed `res.status(200).send('Recibido')` acknowledgment. -/
def ackRecibido : HttpResp := ⟨200, "Recibido"⟩

/-- `s.replace(/\D/g, '')`: keep only the digit characters. -/
def stripNonDigits (s : String) : String :=
  String.mk (s.data.filter Char.isDigit)

/-- `` `whatsapp:+${raw.replace(/\D/g, '')}` ``: canonical channel address. -/
def normalizePhone (raw : String) : String :=
  "whatsapp:+" ++ stripNonDigits raw

/-- Body of a POST to `/api/webhooks/carrito-abandonado`; `none` models an
absent field, `some ""` an empty string (both falsy in the source's check). -/
structure CartReq where
  clienteTelefono : Option String
  urlRecuperacion : Option String
  productos : Option (List Producto)
deriving DecidableEq

/-- The `/api/webhooks/carrito-abandonado` handler (after API-key auth
resolved `tiendaId`).  It acknowledges with 200 `'Recibido'` before the
field check `if (!clienteTelefono || !urlRecuperacion || !productos) return;`
and otherwise appends a fresh pending cart.  Note a present-but-empty
`productos` array is truthy in JS, so it passes the check. -/
def carritoAbandonadoHandler (tiendaId : String) (req : CartReq) (now : Int)
    (st : Store) : HttpResp × Store :=
  match req.clienteTelefono, req.urlRecuperacion, req.productos with
  | some tel, some url, some prods =>
    if tel = "" then (ackRecibido, st)
    else if url = "" then (ackRecibido, st)
    else
      let cart : Cart :=
        { tiendaId := tiendaId
          cliente := normalizePhone tel
          productos := prods
          urlRecuperacion := url
          timestamp := now
          recuperado := false
          estadoMensaje := .pendiente }
      (ackRecibido, { st with carritos := st.carritos ++ [cart] })
  | _, _, _ => (ackRecibido, st)

/-- The Firestore query filter of `/api/webhooks/pedido-creado`:
`tiendaId == req.tiendaId`, `cliente == formattedPhone`, `recuperado == false`. -/
def matchPendingCart (tiendaId phone : String) (c : Cart) : Bool :=
  tiendaId == c.tiendaId && phone == c.cliente && c.recuperado == false

/-- `limit(1).get()` followed by `update` on the first matching doc:
replace the first list element satisfying `p` by its image under `f`;
`none` when no element matches (an empty snapshot). -/
def updateFirst (p : Cart → Bool) (f : Cart → Cart) : List Cart → Option (List Cart)
  | [] => none
  | c :: cs =>
    if p c then some (f c :: cs)
    else (updateFirst p f cs).map (fun l => c :: l)

/-- The `/api/webhooks/pedido-creado` handler (markOrderRecovered): after the
200 acknowledgment and the `if (!clienteTelefono) return;` check, it marks the
first cart matching (tenant, canonical phone, `recuperado == false`) as
recovered, and is a no-op when the snapshot is empty. -/
def pedidoCreadoHandler (tiendaId : String) (telOpt : Option String)
    (st : Store) : HttpResp × Store :=
  match telOpt with
  | none => (ackRecibido, st)
  | some tel =>
    if tel = "" then (ackRecibido, st)
    else
      let phone := normalizePhone tel
      match updateFirst (matchPendingCart tiendaId phone)
          (fun c => { c with recuperado := true }) st.carritos with
      | none => (ackRecibido, st)
      | some cs => (ackRecibido, { st with carritos := cs })

/-- `60 * 60 * 1000` ms: the `oneHourAgo` reminder threshold of the cron job. -/
def threshold : Int := 60 * 60 * 1000

/-- The cron query: carts with `estadoMensaje == 'pendiente'` and
`timestamp <= oneHourAgo`, returned with their doc references
(modelled as positions in `st.carritos`). -/
def sweepSnapshot (now : Int) (st : Store) : List (Nat × Cart) :=
  st.carritos.enum.filter fun ic =>
    decide (ic.2.estadoMensaje = .pendiente ∧ ic.2.timestamp ≤ now - threshold)

/-- `doc.ref.update({ estadoMensaje: 'recordatorio_enviado' })`. -/
def setEnviado (c : Cart) : Cart := { c with estadoMensaje := .recordatorio_enviado }

/-- Apply `f` to the element at position `i` (no-op when out of range). -/
def modifyAt (f : Cart → Cart) : Nat → List Cart → List Cart
  | _, [] => []
  | 0, c :: cs => f c :: cs
  | n + 1, c :: cs => c :: modifyAt f n cs

/-- Update the cart at doc reference `i` to `recordatorio_enviado`. -/
def markEnviadoAt (st : Store) (i : Nat) : Store :=
  { st with carritos := modifyAt setEnviado i st.carritos }

/-- `db.collection('clientes').doc(id).get()`. -/
def lookupShop (st : Store) (id : String) : Option Shop :=
  (st.clientes.find? (fun p => p.1 == id)).map (fun p => p.2)

/-- The reminder body composed by the sweep (it dereferences the first
line item: `cart.productos[0].nombre`). -/
def reminderText (nombre url : String) : String :=
  "¡Hola! Vimos que dejaste \"" ++ nombre ++
    "\" en tu carrito. Puedes completar tu compra aquí: " ++ url

/-- How one cron run ended: the `for` loop ran to completion, or an
exception escaped to the run-level `catch` — either a failed Twilio send or
the `TypeError` from reading `.nombre` of `productos[0]` on an empty array. -/
inductive SweepExit
  | completed
  | sendFailure
  | itemsTypeError
deriving DecidableEq

/-- The body of the cron sweep's `for (const doc of snapshot.docs)` loop.
`sendOk from to body` tells whether `twilioClient.messages.create` succeeds.
A missing tenant doc hits `continue` (only that cart is skipped); a failed
send or the empty-items `TypeError` escapes the loop to the run-level
`catch`, leaving the store as it was and abandoning the remaining docs. -/
def sweepLoop (sendOk : String → String → String → Bool) :
    List (Nat × Cart) → Store → List (Nat × SendEv) →
      Store × List (Nat × SendEv) × SweepExit
  | [], st, sent => (st, sent, .completed)
  | (i, cart) :: rest, st, sent =>
    match lookupShop st cart.tiendaId with
    | none => sweepLoop sendOk rest st sent
    | some shop =>
      match cart.productos with
      | [] => (st, sent, .itemsTypeError)
      | p :: _ =>
        let body := reminderText p.nombre cart.urlRecuperacion
        if sendOk shop.whatsapp cart.cliente body then
          sweepLoop sendOk rest (markEnviadoAt st i)
            (sent ++ [(i, ⟨shop.whatsapp, cart.cliente, body⟩)])
        else (st, sent, .sendFailure)

/-- One run of the `cron.schedule('*/5 * * * *', ...)` sweep: query the
overdue pending carts, then process them in order.  Returns the resulting
store, the successful sends tagged with their cart's doc reference, and how
the run ended. -/
def sweep (sendOk : String → String → String → Bool) (now : Int) (st : Store) :
    Store × List (Nat × SendEv) × SweepExit :=
  sweepLoop sendOk (sweepSnapshot now st) st []

/-- The `'[HUMAN_TAKEOVER]'` escalation sentinel. -/
def sentinel : String := "[HUMAN_TAKEOVER]"

/-- The whitespace characters stripped by JS `String.prototype.trim`
(the common ones: space, tab, line feed, carriage return, vertical tab,
form feed). -/
def jsWhitespaceChar (c : Char) : Bool :=
  c == ' ' || c == '\t' || c == '\n' || c == '\r' || c == '\x0b' || c == '\x0c'

/-- JS `s.trim()`: strip leading and trailing whitespace. -/
def jsTrim (s : String) : String :=
  String.mk (((s.data.dropWhile jsWhitespaceChar).reverse.dropWhile
    jsWhitespaceChar).reverse)

/-- The fixed reply when the tenant has no usable FAQ corpus:
`'Hola, gracias por contactar. Un agente revisará tu mensaje pronto.'`. -/
def fixedNoFaqReply : String :=
  "Hola, gracias por contactar. Un agente revisará tu mensaje pronto."

/-- The fixed handoff reply once the AI returned the sentinel. -/
def fixedHandoffReply : String :=
  "Entiendo. Un agente se pondrá en contacto contigo para ayudarte. Gracias."

/-- What the Gemini HTTP round trip produced, as seen by
`generateResponseWithGemini`:
* `transportError` — `fetch` (or `response.json()`) threw;
* `notOk` — `response.ok` was false;
* `okPayload none` — the optional chain
  `result.candidates?.[0]?.content?.parts?.[0]?` short-circuited
  (missing or empty payload), so the whole expression is `undefined`;
* `okPayload (some none)` — `parts[0]` exists but has no `text` field, so
  `undefined.trim()` raises a `TypeError` inside the `try` block;
* `okPayload (some (some s))` — the model returned the text `s`. -/
inductive GeminiHttp
  | transportError
  | notOk
  | okPayload (textField : Option (Option String))
deriving DecidableEq

/-- The `try` block of `generateResponseWithGemini`; `Except.error` is a
raised JS exception. -/
def geminiTryBody : GeminiHttp → Except Unit String
  | .transportError => .error ()
  | .notOk => .ok sentinel
  | .okPayload none => .ok sentinel
  | .okPayload (some none) => .error ()
  | .okPayload (some (some s)) =>
    .ok (if jsTrim s = "" then sentinel else jsTrim s)

/-- `generateResponseWithGemini`: the `try` block with its `catch` returning
the sentinel — a total function, no exception reaches the caller. -/
def generateResponseWithGemini (r : GeminiHttp) : String :=
  match geminiTryBody r with
  | .ok s => s
  | .error _ => sentinel

/-- The provider failure modes named by the spec: transport failure,
non-success HTTP response, empty/missing payload (including the in-`try`
`TypeError` and a whitespace-only text). -/
def geminiFailureMode (r : GeminiHttp) : Prop :=
  r = .transportError ∨ r = .notOk ∨ r = .okPayload none ∨
    r = .okPayload (some none) ∨
    ∃ s, r = .okPayload (some (some s)) ∧ jsTrim s = ""

/-- Insert message `m` into the conversation keyed `id` (Firestore
`set({...}, {merge:true})` on the conversation doc followed by adding a new
doc to its `mensajes` subcollection); creates the conversation lazily. -/
def upsertConv (id tiendaId : String) (m : Msg) :
    List (String × Conversation) → List (String × Conversation)
  | [] => [(id, ⟨tiendaId, [m]⟩)]
  | (k, conv) :: rest =>
    if k == id then (k, ⟨tiendaId, conv.mensajes ++ [m]⟩) :: rest
    else (k, conv) :: upsertConv id tiendaId m rest

/-- `saveMessageToConversation(conversationId, author, text, tiendaId)`. -/
def saveMessageToConversation (conversationId author text tiendaId : String)
    (st : Store) : Store :=
  { st with conversaciones :=
      upsertConv conversationId tiendaId ⟨author, text⟩ st.conversaciones }

/-- The messages of the conversation keyed `id` in a conversation list. -/
def msgsIn (l : List (String × Conversation)) (id : String) : List Msg :=
  match l.find? (fun p => p.1 == id) with
  | some p => p.2.mensajes
  | none => []

/-- The messages of the conversation keyed `id` in the store. -/
def convMessages (st : Store) (id : String) : List Msg :=
  msgsIn st.conversaciones id

/-- `conversationId.replace('whatsapp:','')` — JS `String.replace` with a
string pattern replaces the first occurrence only. -/
def jsReplaceFirst (s pat rep : String) : String :=
  match s.splitOn pat with
  | [] => s
  | [x] => x
  | x :: y :: rest => x ++ rep ++ String.intercalate pat (y :: rest)

/-- The human-alert text of `notifyHuman` (given the already-built
conversation link). -/
def alertText (conversationId conversationLink : String) : String :=
  "¡Atención! Un cliente (" ++ jsReplaceFirst conversationId "whatsapp:" "" ++
    ") necesita ayuda. La IA no ha podido responder.\n\nPuedes leer la conversación aquí:\n"
    ++ conversationLink

/-- `notifyHuman(shopData, conversationId)`: with no alert phone configured
it only logs (`none`); otherwise it attempts one Twilio send whose success
or failure is swallowed by its own `try`/`catch`.  `encodeURI` stands for
the platform's `encodeURIComponent`. -/
def notifyHumanAttempt (frontendUrl : String) (encodeURI : String → String)
    (shop : Shop) (conversationId : String) : Option SendEv :=
  match shop.telefonoAlertas with
  | none => none
  | some t =>
    if t = "" then none
    else
      let fullFrontendUrl :=
        if frontendUrl.startsWith "http" then frontendUrl
        else "https://" ++ frontendUrl
      let conversationLink :=
        fullFrontendUrl ++ "/conversations/" ++ encodeURI conversationId
      some ⟨shop.whatsapp, "whatsapp:+" ++ stripNonDigits t,
        alertText conversationId conversationLink⟩

/-- What one `/whatsapp-webhook` invocation did (beyond the immediate
`EVENT_RECEIVED` acknowledgment). -/
structure WebhookOutcome where
  store : Store
  escalated : Bool
  alertSend : Option SendEv
  replySend : Option SendEv
deriving DecidableEq

/-- The `/whatsapp-webhook` handler: look the shop up by its WhatsApp
number; if found, always persist the customer message first, then decide
the reply — Gemini when a non-blank FAQ corpus exists (escalating on the
sentinel), the fixed no-FAQ reply plus escalation otherwise — persist the
bot message, and send the reply.  `escalated` records that `notifyHuman`
was invoked; `alertSend` is its attempted alert, `replySend` the final
customer-facing send. -/
def whatsappWebhook (gemini : GeminiHttp) (frontendUrl : String)
    (encodeURI : String → String) (fromAddr msgBody toAddr : String)
    (st : Store) : WebhookOutcome :=
  match st.clientes.find? (fun p => p.2.whatsapp == toAddr) with
  | none => ⟨st, false, none, none⟩
  | some (shopId, shop) =>
    let st1 := saveMessageToConversation fromAddr "user" msgBody shopId st
    let faqsPresent :=
      match shop.faqs with
      | none => false
      | some f => !(f == "") && !(jsTrim f == "")
    if faqsPresent then
      let aiResponse := generateResponseWithGemini gemini
      if aiResponse = sentinel then
        let st2 := saveMessageToConversation fromAddr "bot" fixedHandoffReply shopId st1
        ⟨st2, true, notifyHumanAttempt frontendUrl encodeURI shop fromAddr,
          some ⟨toAddr, fromAddr, fixedHandoffReply⟩⟩
      else
        let st2 := saveMessageToConversation fromAddr "bot" aiResponse shopId st1
        ⟨st2, false, none, some ⟨toAddr, fromAddr, aiResponse⟩⟩
    else
      let st2 := saveMessageToConversation fromAddr "bot" fixedNoFaqReply shopId st1
      ⟨st2, true, notifyHumanAttempt frontendUrl encodeURI shop fromAddr,
        some ⟨toAddr, fromAddr, fixedNoFaqReply⟩⟩

/-! ## Helper lemmas -/

theorem setEnviado_idem (c : Cart) : setEnviado (setEnviado c) = setEnviado c := rfl

theorem modifyAt_getElem?_self (f : Cart → Cart) :
    ∀ (l : List Cart) (n : Nat), (modifyAt f n l)[n]? = (l[n]?).map f := by
  intro l
  induction l with
  | nil => intro n; simp [modifyAt]
  | cons c cs ih =>
    intro n
    cases n with
    | zero => simp [modifyAt]
    | succ m => simpa [modifyAt] using ih m

theorem modifyAt_getElem?_ne (f : Cart → Cart) :
    ∀ (l : List Cart) (n i : Nat), i ≠ n → (modifyAt f n l)[i]? = l[i]? := by
  intro l
  induction l with
  | nil => intro n i _; simp [modifyAt]
  | cons c cs ih =>
    intro n i hne
    cases n with
    | zero =>
      cases i with
      | zero => exact absurd rfl hne
      | succ j => simp [modifyAt]
    | succ m =>
      cases i with
      | zero => simp [modifyAt]
      | succ j => simpa [modifyAt] using ih m j (fun h => hne (by omega))

theorem updateFirst_eq_none {p : Cart → Bool} {f : Cart → Cart} :
    ∀ {l : List Cart}, (∀ c ∈ l, p c = false) → updateFirst p f l = none := by
  intro l
  induction l with
  | nil => intro _; rfl
  | cons c cs ih =>
    intro h
    have hc := h c (List.mem_cons_self c cs)
    simp [updateFirst, hc, ih fun x hx => h x (List.mem_cons_of_mem c hx)]

theorem updateFirst_getElem? {p : Cart → Bool} {f : Cart → Cart} :
    ∀ {l l' : List Cart}, updateFirst p f l = some l' →
      ∀ i : Nat, l'[i]? = l[i]? ∨
        ∃ c, l[i]? = some c ∧ p c = true ∧ l'[i]? = some (f c) := by
  intro l
  induction l with
  | nil => intro l' h; exact absurd h (by simp [updateFirst])
  | cons c cs ih =>
    intro l' h i
    by_cases hc : p c = true
    · have hl' : l' = f c :: cs := by
        simpa [updateFirst, hc] using h.symm
      cases i with
      | zero => exact Or.inr ⟨c, by simp, hc, by simp [hl']⟩
      | succ j => exact Or.inl (by simp [hl'])
    · rw [updateFirst, if_neg hc] at h
      obtain ⟨cs', hcs', rfl⟩ := Option.map_eq_some'.mp h
      cases i with
      | zero => exact Or.inl (by simp)
      | succ j =>
        rcases ih hcs' j with h1 | ⟨d, hd1, hd2, hd3⟩
        · exact Or.inl (by simpa using h1)
        · exact Or.inr ⟨d, by simpa using hd1, hd2, by simpa using hd3⟩

theorem updateFirst_clears {p : Cart → Bool} {f : Cart → Cart}
    (hpf : ∀ c, p c = true → p (f c) = false) :
    ∀ {l l' : List Cart}, l.countP p ≤ 1 → updateFirst p f l = some l' →
      ∀ c ∈ l', p c = false := by
  intro l
  induction l with
  | nil => intro l' _ h; exact absurd h (by simp [updateFirst])
  | cons c cs ih =>
    intro l' hcount h x hx
    by_cases hc : p c = true
    · have hl' : l' = f c :: cs := by
        simpa [updateFirst, hc] using h.symm
      have hcc : (c :: cs).countP p = cs.countP p + 1 := by
        simp [List.countP_cons, hc]
      have hcs0 : cs.countP p = 0 := by omega
      have hnone : ∀ y ∈ cs, p y = false := by
        intro y hy
        have := List.countP_eq_zero.mp hcs0 y hy
        simpa using this
      rw [hl'] at hx
      rcases List.mem_cons.mp hx with rfl | hx'
      · exact hpf c hc
      · exact hnone x hx'
    · rw [updateFirst, if_neg hc] at h
      obtain ⟨cs', hcs', rfl⟩ := Option.map_eq_some'.mp h
      have hc' : p c = false := by simpa using hc
      have hcc : (c :: cs).countP p = cs.countP p := by
        simp [List.countP_cons, hc']
      have hcount' : cs.countP p ≤ 1 := by omega
      rcases List.mem_cons.mp hx with rfl | hx'
      · simpa using hc
      · exact ih hcount' hcs' x hx'

theorem msgsIn_upsert (id tiendaId : String) (m : Msg) :
    ∀ l, msgsIn (upsertConv id tiendaId m l) id = msgsIn l id ++ [m] := by
  intro l
  induction l with
  | nil => simp [upsertConv, msgsIn]
  | cons kv rest ih =>
    obtain ⟨k, conv⟩ := kv
    by_cases hk : (k == id) = true
    · simp [upsertConv, msgsIn, hk]
    · simp only [upsertConv, msgsIn, hk] at ih ⊢
      simp only [Bool.false_eq_true, if_false]
      rw [List.find?_cons_of_neg _ (by simpa using hk),
        List.find?_cons_of_neg _ (by simpa using hk)]
      exact ih

theorem convMessages_save (id author text tiendaId : String) (st : Store) :
    convMessages (saveMessageToConversation id author text tiendaId st) id =
      convMessages st id ++ [⟨author, text⟩] := by
  simp [convMessages, saveMessageToConversation, msgsIn_upsert]

theorem sweepLoop_missing_tenant (sendOk : String → String → String → Bool)
    {st : Store} {cart : Cart} (hL : lookupShop st cart.tiendaId = none)
    (i : Nat) (rest : List (Nat × Cart)) (sent : List (Nat × SendEv)) :
    sweepLoop sendOk ((i, cart) :: rest) st sent = sweepLoop sendOk rest st sent := by
  simp [sweepLoop, hL]

theorem sweepLoop_empty_items (sendOk : String → String → String → Bool)
    {st : Store} {cart : Cart} {shop : Shop}
    (hL : lookupShop st cart.tiendaId = some shop) (hP : cart.productos = [])
    (i : Nat) (rest : List (Nat × Cart)) (sent : List (Nat × SendEv)) :
    sweepLoop sendOk ((i, cart) :: rest) st sent = (st, sent, .itemsTypeError) := by
  simp [sweepLoop, hL, hP]

theorem sweepLoop_send_ok (sendOk : String → String → String → Bool)
    {st : Store} {cart : Cart} {shop : Shop} {p : Producto} {ps : List Producto}
    (hL : lookupShop st cart.tiendaId = some shop) (hP : cart.productos = p :: ps)
    (hS : sendOk shop.whatsapp cart.cliente
      (reminderText p.nombre cart.urlRecuperacion) = true)
    (i : Nat) (rest : List (Nat × Cart)) (sent : List (Nat × SendEv)) :
    sweepLoop sendOk ((i, cart) :: rest) st sent =
      sweepLoop sendOk rest (markEnviadoAt st i) (sent ++
        [(i, ⟨shop.whatsapp, cart.cliente,
          reminderText p.nombre cart.urlRecuperacion⟩)]) := by
  simp [sweepLoop, hL, hP, hS]

theorem sweepLoop_send_fail (sendOk : String → String → String → Bool)
    {st : Store} {cart : Cart} {shop : Shop} {p : Producto} {ps : List Producto}
    (hL : lookupShop st cart.tiendaId = some shop) (hP : cart.productos = p :: ps)
    (hS : sendOk shop.whatsapp cart.cliente
      (reminderText p.nombre cart.urlRecuperacion) = false)
    (i : Nat) (rest : List (Nat × Cart)) (sent : List (Nat × SendEv)) :
    sweepLoop sendOk ((i, cart) :: rest) st sent = (st, sent, .sendFailure) := by
  simp [sweepLoop, hL, hP, hS]

theorem sweepLoop_effect (sendOk : String → String → String → Bool) :
    ∀ (docs : List (Nat × Cart)) (st : Store) (sent : List (Nat × SendEv)),
      ∃ new,
        (sweepLoop sendOk docs st sent).2.1 = sent ++ new ∧
        ∀ (i : Nat) (c : Cart), st.carritos[i]? = some c →
          ((sweepLoop sendOk docs st sent).1.carritos[i]? = some c ∧
            ∀ ev, (i, ev) ∉ new) ∨
          ((sweepLoop sendOk docs st sent).1.carritos[i]? = some (setEnviado c) ∧
            ∃ ev, (i, ev) ∈ new) := by
  intro docs
  induction docs with
  | nil =>
    intro st sent
    exact ⟨[], by simp [sweepLoop], fun i c h => Or.inl ⟨by simpa [sweepLoop] using h, by simp⟩⟩
  | cons d rest ih =>
    obtain ⟨i₀, cart⟩ := d
    intro st sent
    cases hL : lookupShop st cart.tiendaId with
    | none =>
      rw [sweepLoop_missing_tenant sendOk hL]
      exact ih st sent
    | some shop =>
      cases hP : cart.productos with
      | nil =>
        rw [sweepLoop_empty_items sendOk hL hP]
        exact ⟨[], by simp, fun i c h => Or.inl ⟨h, by simp⟩⟩
      | cons p ps =>
        by_cases hS : sendOk shop.whatsapp cart.cliente
            (reminderText p.nombre cart.urlRecuperacion) = true
        · rw [sweepLoop_send_ok sendOk hL hP hS]
          set ev₀ : SendEv :=
            ⟨shop.whatsapp, cart.cliente, reminderText p.nombre cart.urlRecuperacion⟩
          obtain ⟨new', hnew'1, hnew'2⟩ := ih (markEnviadoAt st i₀) (sent ++ [(i₀, ev₀)])
          refine ⟨(i₀, ev₀) :: new', by simpa [List.append_assoc] using hnew'1, ?_⟩
          intro i c hc
          by_cases hi : i = i₀
          · subst hi
            have hmid : (markEnviadoAt st i).carritos[i]? = some (setEnviado c) := by
              simp [markEnviadoAt, modifyAt_getElem?_self, hc]
            rcases hnew'2 i (setEnviado c) hmid with ⟨h1, _⟩ | ⟨h1, ev, hev⟩
            · exact Or.inr ⟨h1, ev₀, List.mem_cons_self _ _⟩
            · exact Or.inr ⟨by simpa [setEnviado_idem] using h1, ev,
                List.mem_cons_of_mem _ hev⟩
          · have hmid : (markEnviadoAt st i₀).carritos[i]? = some c := by
              simpa [markEnviadoAt, modifyAt_getElem?_ne setEnviado _ _ _ hi] using hc
            rcases hnew'2 i c hmid with ⟨h1, h2⟩ | ⟨h1, ev, hev⟩
            · refine Or.inl ⟨h1, ?_⟩
              intro ev hev
              rcases List.mem_cons.mp hev with heq | hmem
              · exact hi (by simpa using congrArg Prod.fst heq)
              · exact h2 ev hmem
            · exact Or.inr ⟨h1, ev, List.mem_cons_of_mem _ hev⟩
        · have hS' : sendOk shop.whatsapp cart.cliente
              (reminderText p.nombre cart.urlRecuperacion) = false := by
            simpa using hS
          rw [sweepLoop_send_fail sendOk hL hP hS']
          exact ⟨[], by simp, fun i c h => Or.inl ⟨h, by simp⟩⟩

theorem sweepLoop_sends (sendOk : String → String → String → Bool) :
    ∀ (docs : List (Nat × Cart)) (st : Store) (sent : List (Nat × SendEv))
      (i : Nat) (ev : SendEv), (i, ev) ∈ (sweepLoop sendOk docs st sent).2.1 →
      (i, ev) ∈ sent ∨ ∃ c, (i, c) ∈ docs ∧ ev.toAddr = c.cliente := by
  intro docs
  induction docs with
  | nil =>
    intro st sent i ev h
    exact Or.inl (by simpa [sweepLoop] using h)
  | cons d rest ih =>
    obtain ⟨i₀, cart⟩ := d
    intro st sent i ev h
    cases hL : lookupShop st cart.tiendaId with
    | none =>
      rw [sweepLoop_missing_tenant sendOk hL] at h
      rcases ih st sent i ev h with h1 | ⟨c, hc, hto⟩
      · exact Or.inl h1
      · exact Or.inr ⟨c, List.mem_cons_of_mem _ hc, hto⟩
    | some shop =>
      cases hP : cart.productos with
      | nil =>
        rw [sweepLoop_empty_items sendOk hL hP] at h
        exact Or.inl (by simpa using h)
      | cons p ps =>
        by_cases hS : sendOk shop.whatsapp cart.cliente
            (reminderText p.nombre cart.urlRecuperacion) = true
        · rw [sweepLoop_send_ok sendOk hL hP hS] at h
          rcases ih _ _ i ev h with h1 | ⟨c, hc, hto⟩
          · rcases List.mem_append.mp h1 with h2 | h2
            · exact Or.inl h2
            · have h3 : (i, ev) = (i₀, (⟨shop.whatsapp, cart.cliente,
                  reminderText p.nombre cart.urlRecuperacion⟩ : SendEv)) := by
                simpa using h2
              refine Or.inr ⟨cart, ?_, ?_⟩
              · rw [show i = i₀ from by simpa using congrArg Prod.fst h3]
                exact List.mem_cons_self _ _
              · rw [show ev = (⟨shop.whatsapp, cart.cliente,
                  reminderText p.nombre cart.urlRecuperacion⟩ : SendEv) from
                    by simpa using congrArg Prod.snd h3]
          · exact Or.inr ⟨c, List.mem_cons_of_mem _ hc, hto⟩
        · have hS' : sendOk shop.whatsapp cart.cliente
              (reminderText p.nombre cart.urlRecuperacion) = false := by
            simpa using hS
          rw [sweepLoop_send_fail sendOk hL hP hS'] at h
          exact Or.inl (by simpa using h)

theorem sweepLoop_no_typeError (sendOk : String → String → String → Bool) :
    ∀ (docs : List (Nat × Cart)) (st : Store) (sent : List (Nat × SendEv)),
      (∀ ic ∈ docs, ic.2.productos ≠ []) →
      (sweepLoop sendOk docs st sent).2.2 ≠ .itemsTypeError := by
  intro docs
  induction docs with
  | nil => intro st sent _; simp [sweepLoop]
  | cons d rest ih =>
    obtain ⟨i₀, cart⟩ := d
    intro st sent hne
    cases hL : lookupShop st cart.tiendaId with
    | none =>
      rw [sweepLoop_missing_tenant sendOk hL]
      exact ih st sent fun ic hic => hne ic (List.mem_cons_of_mem _ hic)
    | some shop =>
      cases hP : cart.productos with
      | nil => exact absurd hP (hne (i₀, cart) (List.mem_cons_self _ _))
      | cons p ps =>
        by_cases hS : sendOk shop.whatsapp cart.cliente
            (reminderText p.nombre cart.urlRecuperacion) = true
        · rw [sweepLoop_send_ok sendOk hL hP hS]
          exact ih _ _ fun ic hic => hne ic (List.mem_cons_of_mem _ hic)
        · have hS' : sendOk shop.whatsapp cart.cliente
              (reminderText p.nombre cart.urlRecuperacion) = false := by
            simpa using hS
          rw [sweepLoop_send_fail sendOk hL hP hS']
          simp

theorem sweepSnapshot_mem {now : Int} {st : Store} {i : Nat} {c : Cart}
    (h : (i, c) ∈ sweepSnapshot now st) :
    st.carritos[i]? = some c ∧ c.estadoMensaje = .pendiente ∧
      c.timestamp ≤ now - threshold := by
  obtain ⟨h1, h2⟩ := List.mem_filter.mp h
  have h3 := List.mk_mem_enum_iff_getElem?.mp h1
  have h4 := of_decide_eq_true h2
  exact ⟨h3, h4.1, h4.2⟩

/-! ## Concrete fixtures for counterexamples and witnesses -/

/-- A tenant with messaging number, alert phone and a FAQ corpus. -/
def shop1 : Shop :=
  ⟨"Tienda Uno", "whatsapp:+14155238886", some "34 600 111 222",
    some "Los envíos tardan 3 días."⟩

/-- An overdue pending cart for customer `whatsapp:+111`. -/
def cart0C1 : Cart :=
  ⟨"t1", "whatsapp:+111", [⟨"Zapatillas"⟩], "https://shop.example/r0", 0, false,
    .pendiente⟩

/-- An overdue pending cart for customer `whatsapp:+222`. -/
def cart1C1 : Cart :=
  ⟨"t1", "whatsapp:+222", [⟨"Camiseta"⟩], "https://shop.example/r1", 0, false,
    .pendiente⟩

/-- A store owning both overdue carts and their tenant. -/
def stC1 : Store := ⟨[("t1", shop1)], [cart0C1, cart1C1], []⟩

/-- A gateway that fails for `whatsapp:+111` and succeeds for `whatsapp:+222`. -/
def sendOkC1 : String → String → String → Bool :=
  fun _ toA _ => toA == "whatsapp:+222"

/-- A gateway that always succeeds. -/
def sendOkTrue : String → String → String → Bool := fun _ _ _ => true

/-- A gateway that always fails. -/
def sendOkFalse : String → String → String → Bool := fun _ _ _ => false

/-- A store holding an overdue cart whose tenant record is missing. -/
def stC1m : Store := ⟨[], [cart0C1], []⟩

/-! ## Claims -/

/-- Claim C1, counterexample: in the sweep of `stC1` both carts are overdue
and pending (the snapshot holds both), the Notification Gateway would accept
cart 1's reminder, yet because cart 0's send raises, the run-level catch ends
the sweep: no send happens at all, the store is untouched, and cart 1 is never
processed.  This refutes the claim that a failure on one cart does not prevent
processing of the remaining carts of the same sweep. -/
theorem sweep_send_failure_blocks_rest_cex :
    sweepSnapshot 3600000 stC1 = [(0, cart0C1), (1, cart1C1)] ∧
    sendOkC1 shop1.whatsapp cart1C1.cliente
      (reminderText "Camiseta" "https://shop.example/r1") = true ∧
    sweep sendOkC1 3600000 stC1 = (stC1, [], .sendFailure) := by
  refine ⟨?_, ?_, ?_⟩ <;> decide

/-- Claim C1, amended: a cart whose tenant record is missing is skipped while
the sweep continues with the remaining carts; but a Notification Gateway send
error for one cart ends the whole sweep at the run-level catch, so the
remaining matching carts of that sweep are not processed (their state is left
untouched for the next run). -/
theorem sweep_missing_tenant_skips_send_failure_aborts :
    (∀ (sendOk : String → String → String → Bool) (st : Store) (cart : Cart)
        (i : Nat) (rest : List (Nat × Cart)) (sent : List (Nat × SendEv)),
      lookupShop st cart.tiendaId = none →
      sweepLoop sendOk ((i, cart) :: rest) st sent = sweepLoop sendOk rest st sent) ∧
    (∀ (sendOk : String → String → String → Bool) (st : Store) (cart : Cart)
        (shop : Shop) (p : Producto) (ps : List Producto) (i : Nat)
        (rest : List (Nat × Cart)) (sent : List (Nat × SendEv)),
      lookupShop st cart.tiendaId = some shop →
      cart.productos = p :: ps →
      sendOk shop.whatsapp cart.cliente
        (reminderText p.nombre cart.urlRecuperacion) = false →
      sweepLoop sendOk ((i, cart) :: rest) st sent = (st, sent, .sendFailure)) :=
  ⟨fun sendOk _ _ i rest sent hL => sweepLoop_missing_tenant sendOk hL i rest sent,
    fun sendOk _ _ _ _ _ i rest sent hL hP hS =>
      sweepLoop_send_fail sendOk hL hP hS i rest sent⟩

/-- Witness for the amended C1 theorem at concrete inputs: the missing-tenant
skip in `stC1m` and the send-failure abort in `stC1`. -/
theorem sweep_missing_tenant_skips_send_failure_aborts_witness :
    (sweepLoop sendOkTrue [(0, cart0C1), (1, cart1C1)] stC1m [] =
      sweepLoop sendOkTrue [(1, cart1C1)] stC1m []) ∧
    (sweepLoop sendOkC1 [(0, cart0C1), (1, cart1C1)] stC1 [] =
      (stC1, [], .sendFailure)) :=
  ⟨sweep_missing_tenant_skips_send_failure_aborts.1 sendOkTrue stC1m cart0C1 0
      [(1, cart1C1)] [] (by decide),
    sweep_missing_tenant_skips_send_failure_aborts.2 sendOkC1 stC1 cart0C1 shop1
      ⟨"Zapatillas"⟩ [] 0 [(1, cart1C1)] [] (by decide) (by decide) (by decide)⟩

/-- A cart-abandoned request whose `productos` is a present but empty array. -/
def reqEmptyItems : CartReq :=
  ⟨some "600 111 222", some "https://shop.example/r", some []⟩

/-- The pending cart `reqEmptyItems` creates: its items list is empty. -/
def emptyItemsCart : Cart :=
  ⟨"t1", "whatsapp:+600111222", [], "https://shop.example/r", 0, false, .pendiente⟩

/-- A store holding the empty-items cart and its tenant. -/
def stC10 : Store := ⟨[("t1", shop1)], [emptyItemsCart], []⟩

/-- Claim C10: the presence check of the cart-abandoned webhook accepts an
empty `productos` array (it is truthy in JS), creating a pending cart with an
empty items list; when the sweep processes such a cart, reading
`cart.productos[0].nombre` raises the `TypeError` that ends the run; and the
first-item access is safe exactly under the precondition that every cart in
the sweep's snapshot has a non-empty items list. -/
theorem empty_items_cart_accepted_first_item_crash :
    (carritoAbandonadoHandler "t1" reqEmptyItems 0 ⟨[("t1", shop1)], [], []⟩).2.carritos
        = [emptyItemsCart] ∧
    (∀ (sendOk : String → String → String → Bool) (st : Store) (cart : Cart)
        (shop : Shop) (i : Nat) (rest : List (Nat × Cart))
        (sent : List (Nat × SendEv)),
      lookupShop st cart.tiendaId = some shop → cart.productos = [] →
      sweepLoop sendOk ((i, cart) :: rest) st sent = (st, sent, .itemsTypeError)) ∧
    (∀ (sendOk : String → String → String → Bool) (now : Int) (st : Store),
      (∀ ic ∈ sweepSnapshot now st, ic.2.productos ≠ []) →
      (sweep sendOk now st).2.2 ≠ .itemsTypeError) :=
  ⟨by decide,
    fun sendOk _ _ _ i rest sent hL hP =>
      sweepLoop_empty_items sendOk hL hP i rest sent,
    fun sendOk now st h => sweepLoop_no_typeError sendOk _ st [] h⟩

/-- Witness for C10 at concrete inputs: the sweep over the store holding the
empty-items cart ends in the `TypeError`, and the sweep over `stC1` (all
items lists non-empty) never does. -/
theorem empty_items_cart_accepted_first_item_crash_witness :
    (sweepLoop sendOkTrue [(0, emptyItemsCart)] stC10 [] =
      (stC10, [], .itemsTypeError)) ∧
    (sweep sendOkTrue 3600000 stC1).2.2 ≠ .itemsTypeError :=
  ⟨empty_items_cart_accepted_first_item_crash.2.1 sendOkTrue stC10 emptyItemsCart
      shop1 0 [] [] (by decide) (by decide),
    empty_items_cart_accepted_first_item_crash.2.2 sendOkTrue 3600000 stC1
      (by decide)⟩

/-- A cart-abandoned request with the customer phone absent. -/
def reqNoPhone : CartReq :=
  ⟨none, some "https://shop.example/r", some [⟨"Zapatillas"⟩]⟩

/-- A store with one tenant and no carts. -/
def stC9 : Store := ⟨[("t1", shop1)], [], []⟩

/-- Claim C9, counterexample: a cart-abandoned request with the customer phone
missing is answered with the success acknowledgment 200 `'Recibido'` (sent
before validation) and the handler silently returns — no ValidationError, no
rejection reaches the caller; the store is unchanged. -/
theorem carrito_missing_field_acks_200_cex :
    carritoAbandonadoHandler "t1" reqNoPhone 0 stC9 =
      ({ status := 200, body := "Recibido" }, stC9) := by
  decide

/-- Claim C9, amended: the handler checks that all three of customer phone,
recovery URL and items are present; if any is missing (or a phone/URL is the
empty string) it creates no cart record and mutates no state — but the
request is not rejected: the handler has already acknowledged with 200
`'Recibido'` before validating. -/
theorem carrito_missing_field_no_record_ack (tiendaId : String) (req : CartReq)
    (now : Int) (st : Store)
    (hmiss : req.clienteTelefono = none ∨ req.clienteTelefono = some "" ∨
      req.urlRecuperacion = none ∨ req.urlRecuperacion = some "" ∨
      req.productos = none) :
    carritoAbandonadoHandler tiendaId req now st = (ackRecibido, st) := by
  obtain ⟨tel, url, prods⟩ := req
  simp only at hmiss
  rcases hmiss with h | h | h | h | h
  · subst h; cases url <;> cases prods <;> simp [carritoAbandonadoHandler]
  · subst h; cases url <;> cases prods <;> simp [carritoAbandonadoHandler]
  · subst h; cases tel <;> cases prods <;> simp [carritoAbandonadoHandler]
  · subst h
    cases tel with
    | none => cases prods <;> simp [carritoAbandonadoHandler]
    | some t =>
      cases prods with
      | none => simp [carritoAbandonadoHandler]
      | some ps => by_cases ht : t = "" <;> simp [carritoAbandonadoHandler, ht]
  · subst h; cases tel <;> cases url <;> simp [carritoAbandonadoHandler]

/-- Witness for the amended C9 theorem: the missing-phone request on `stC9`. -/
theorem carrito_missing_field_no_record_ack_witness :
    carritoAbandonadoHandler "t1" reqNoPhone 0 stC9 = (ackRecibido, stC9) :=
  carrito_missing_field_no_record_ack "t1" reqNoPhone 0 stC9 (Or.inl rfl)

/-- Claim C7: `markOrderRecovered` (the pedido-creado handler) when no cart
matches (tenant, canonical customer address, `recuperado = false`) is a
no-op: it returns the plain acknowledgment — no exception — and the store is
exactly what it was. -/
theorem pedido_creado_no_match_noop (tiendaId tel : String) (st : Store)
    (hnm : ∀ c ∈ st.carritos,
      matchPendingCart tiendaId (normalizePhone tel) c = false) :
    pedidoCreadoHandler tiendaId (some tel) st = (ackRecibido, st) := by
  by_cases ht : tel = ""
  · simp [pedidoCreadoHandler, ht]
  · simp [pedidoCreadoHandler, ht, updateFirst_eq_none hnm]

/-- Witness for C7: a recovery webhook for tenant `t2`, for which `stC1`
holds no cart at all, leaves the store unchanged. -/
theorem pedido_creado_no_match_noop_witness :
    pedidoCreadoHandler "t2" (some "600 111 222") stC1 = (ackRecibido, stC1) :=
  pedido_creado_no_match_noop "t2" "600 111 222" stC1 (by decide)

/-- Two concurrently-pending carts for the same tenant and customer — the
data model enforces no uniqueness (spec §3/§9). -/
def cartA : Cart :=
  ⟨"t1", "whatsapp:+34600111222", [⟨"Zapatillas"⟩], "https://shop.example/rA",
    0, false, .pendiente⟩

/-- A second pending cart for the very same tenant and customer. -/
def cartB : Cart :=
  ⟨"t1", "whatsapp:+34600111222", [⟨"Camiseta"⟩], "https://shop.example/rB",
    0, false, .pendiente⟩

/-- A store with two pending carts for one customer. -/
def stC8 : Store := ⟨[("t1", shop1)], [cartA, cartB], []⟩

/-- Claim C8, counterexample: with two pending carts for the same tenant and
customer (a state the model permits), the second `markOrderRecovered` call
does NOT find no match: it marks the second cart, changing the store again —
so calling twice is not the no-op the claim describes. -/
theorem pedido_creado_twice_two_carts_cex :
    (pedidoCreadoHandler "t1" (some "34 600 111 222")
        ((pedidoCreadoHandler "t1" (some "34 600 111 222") stC8).2)).2 ≠
      (pedidoCreadoHandler "t1" (some "34 600 111 222") stC8).2 := by
  decide

/-- Claim C8, amended: `markOrderRecovered` is idempotent whenever at most
one cart matches (tenant, canonical customer address, `recuperado = false`):
the first call marks the single matching cart recovered, and the second call
finds no match and changes nothing.  (With several matching pending carts,
each successive call recovers one more cart, as the counterexample shows.) -/
theorem pedido_creado_idempotent_of_unique_match (tiendaId tel : String)
    (st : Store)
    (huniq : st.carritos.countP
      (matchPendingCart tiendaId (normalizePhone tel)) ≤ 1) :
    pedidoCreadoHandler tiendaId (some tel)
        ((pedidoCreadoHandler tiendaId (some tel) st).2) =
      pedidoCreadoHandler tiendaId (some tel) st := by
  by_cases ht : tel = ""
  · simp [pedidoCreadoHandler, ht]
  · have hpf : ∀ c, matchPendingCart tiendaId (normalizePhone tel) c = true →
        matchPendingCart tiendaId (normalizePhone tel)
          { c with recuperado := true } = false := by
      intro c _
      simp [matchPendingCart]
    cases hU : updateFirst (matchPendingCart tiendaId (normalizePhone tel))
        (fun c => { c with recuperado := true }) st.carritos with
    | none => simp [pedidoCreadoHandler, ht, hU]
    | some cs =>
      have hclear : ∀ c ∈ cs,
          matchPendingCart tiendaId (normalizePhone tel) c = false :=
        updateFirst_clears hpf huniq hU
      have hU2 : updateFirst (matchPendingCart tiendaId (normalizePhone tel))
          (fun c => { c with recuperado := true }) cs = none :=
        updateFirst_eq_none hclear
      simp [pedidoCreadoHandler, ht, hU, hU2]

/-- Witness for the amended C8 theorem: with the single matching cart of
`stC1` (customer `whatsapp:+111` has exactly one pending cart), calling the
handler twice equals calling it once. -/
theorem pedido_creado_idempotent_of_unique_match_witness :
    pedidoCreadoHandler "t1" (some "111")
        ((pedidoCreadoHandler "t1" (some "111") stC1).2) =
      pedidoCreadoHandler "t1" (some "111") stC1 :=
  pedido_creado_idempotent_of_unique_match "t1" "111" stC1 (by decide)

/-- Claim C6: `generateResponseWithGemini` maps every provider failure mode —
transport error, non-success HTTP response, missing/empty payload (including
the in-`try` `TypeError` on a `text`-less part and a whitespace-only text) —
to the `'[HUMAN_TAKEOVER]'` sentinel, the very same outcome as an explicit
sentinel response; and whenever the `try` block raises, the `catch` turns it
into the sentinel, so no exception ever reaches the webhook handler. -/
theorem gemini_failures_map_to_sentinel (r : GeminiHttp) :
    (geminiFailureMode r → generateResponseWithGemini r = sentinel ∧
      generateResponseWithGemini r =
        generateResponseWithGemini (.okPayload (some (some sentinel)))) ∧
    (geminiTryBody r = .error () → generateResponseWithGemini r = sentinel) := by
  have hsent :
      generateResponseWithGemini (.okPayload (some (some sentinel))) = sentinel := by
    decide
  constructor
  · intro hf
    have h1 : generateResponseWithGemini r = sentinel := by
      rcases hf with rfl | rfl | rfl | rfl | ⟨s, rfl, hs⟩
      · rfl
      · rfl
      · rfl
      · rfl
      · simp [generateResponseWithGemini, geminiTryBody, hs]
    exact ⟨h1, h1.trans hsent.symm⟩
  · intro he
    simp [generateResponseWithGemini, he]

/-- Witness for C6: the transport-failure case evaluates to the sentinel and
agrees with the explicit-sentinel response. -/
theorem gemini_failures_map_to_sentinel_witness :
    generateResponseWithGemini .transportError = sentinel ∧
    generateResponseWithGemini .transportError =
      generateResponseWithGemini (.okPayload (some (some sentinel))) :=
  (gemini_failures_map_to_sentinel .transportError).1 (Or.inl rfl)

/-- Claim C5: an inbound message addressed to an existing tenant whose FAQ
corpus is absent or blank always escalates — `notifyHuman` is invoked (the
human-alert attempt) and the fixed no-FAQ reply is sent to the customer — and
the conversation gains exactly the customer message followed by the bot
message, in that order (the customer message is persisted before the FAQ
check, the decision logic, runs). -/
theorem webhook_no_faq_escalates (gemini : GeminiHttp)
    (frontendUrl : String) (encodeURI : String → String)
    (fromAddr msgBody toAddr : String) (st : Store) (shopId : String)
    (shop : Shop)
    (hfind : st.clientes.find? (fun p => p.2.whatsapp == toAddr) =
      some (shopId, shop))
    (hfaqs : shop.faqs = none ∨ ∃ f, shop.faqs = some f ∧ jsTrim f = "") :
    (whatsappWebhook gemini frontendUrl encodeURI fromAddr msgBody toAddr
        st).escalated = true ∧
    (whatsappWebhook gemini frontendUrl encodeURI fromAddr msgBody toAddr
        st).replySend = some ⟨toAddr, fromAddr, fixedNoFaqReply⟩ ∧
    (whatsappWebhook gemini frontendUrl encodeURI fromAddr msgBody toAddr
        st).alertSend = notifyHumanAttempt frontendUrl encodeURI shop fromAddr ∧
    convMessages (whatsappWebhook gemini frontendUrl encodeURI fromAddr msgBody
        toAddr st).store fromAddr =
      convMessages st fromAddr ++
        [⟨"user", msgBody⟩, ⟨"bot", fixedNoFaqReply⟩] := by
  have hpres : (match shop.faqs with
      | none => false
      | some f => !(f == "") && !(jsTrim f == "")) = false := by
    rcases hfaqs with h | ⟨f, hf, ht⟩
    · simp [h]
    · simp [hf, ht]
  simp only [whatsappWebhook, hfind, hpres, Bool.false_eq_true, if_false]
  refine ⟨by trivial, by trivial, by trivial, ?_⟩
  rw [convMessages_save, convMessages_save, List.append_assoc]
  rfl

/-- A tenant with no FAQ corpus configured. -/
def shopNoFaq : Shop :=
  ⟨"Tienda Dos", "whatsapp:+14155230000", some "34 600 999 888", none⟩

/-- A store owning the FAQ-less tenant and no conversations yet. -/
def stC5 : Store := ⟨[("t2", shopNoFaq)], [], []⟩

/-- Witness for C5: a concrete inbound message to the FAQ-less tenant of
`stC5` escalates, sends the fixed reply, and appends customer then bot. -/
theorem webhook_no_faq_escalates_witness :
    (whatsappWebhook .notOk "https://app.example" (fun s => s)
        "whatsapp:+34611222333" "hola" "whatsapp:+14155230000" stC5).escalated
        = true ∧
    (whatsappWebhook .notOk "https://app.example" (fun s => s)
        "whatsapp:+34611222333" "hola" "whatsapp:+14155230000" stC5).replySend =
      some ⟨"whatsapp:+14155230000", "whatsapp:+34611222333", fixedNoFaqReply⟩ ∧
    (whatsappWebhook .notOk "https://app.example" (fun s => s)
        "whatsapp:+34611222333" "hola" "whatsapp:+14155230000" stC5).alertSend =
      notifyHumanAttempt "https://app.example" (fun s => s) shopNoFaq
        "whatsapp:+34611222333" ∧
    convMessages (whatsappWebhook .notOk "https://app.example" (fun s => s)
        "whatsapp:+34611222333" "hola" "whatsapp:+14155230000" stC5).store
        "whatsapp:+34611222333" =
      convMessages stC5 "whatsapp:+34611222333" ++
        [⟨"user", "hola"⟩, ⟨"bot", fixedNoFaqReply⟩] :=
  webhook_no_faq_escalates .notOk "https://app.example" (fun s => s)
    "whatsapp:+34611222333" "hola" "whatsapp:+14155230000" stC5 "t2" shopNoFaq
    (by decide) (Or.inl rfl)

/-- Claim C3: every reminder a sweep sends belongs to a cart that, at sweep
start, had `messageState = pending` and `createdAt ≤ now − threshold` (and is
addressed to that cart's customer); consequently a cart already
`reminder_sent` at sweep start is never sent a reminder by that sweep. -/
theorem sweep_sends_only_overdue_pending
    (sendOk : String → String → String → Bool) (now : Int) (st : Store) :
    (∀ (i : Nat) (ev : SendEv), (i, ev) ∈ (sweep sendOk now st).2.1 →
      ∃ c, st.carritos[i]? = some c ∧ c.estadoMensaje = .pendiente ∧
        c.timestamp ≤ now - threshold ∧ ev.toAddr = c.cliente) ∧
    (∀ (i : Nat) (c : Cart), st.carritos[i]? = some c →
      c.estadoMensaje = .recordatorio_enviado →
      ∀ ev : SendEv, (i, ev) ∉ (sweep sendOk now st).2.1) := by
  have key : ∀ (i : Nat) (ev : SendEv), (i, ev) ∈ (sweep sendOk now st).2.1 →
      ∃ c, st.carritos[i]? = some c ∧ c.estadoMensaje = .pendiente ∧
        c.timestamp ≤ now - threshold ∧ ev.toAddr = c.cliente := by
    intro i ev h
    have h' : (i, ev) ∈ (sweepLoop sendOk (sweepSnapshot now st) st []).2.1 := h
    rcases sweepLoop_sends sendOk (sweepSnapshot now st) st [] i ev h' with
      h1 | ⟨c, hc, hto⟩
    · simp at h1
    · obtain ⟨hg, hp, ht⟩ := sweepSnapshot_mem hc
      exact ⟨c, hg, hp, ht, hto⟩
  refine ⟨key, ?_⟩
  intro i c hc hsentState ev hmem
  obtain ⟨c', hg', hp', _, _⟩ := key i ev hmem
  rw [hc] at hg'
  obtain rfl := Option.some.inj hg'
  rw [hsentState] at hp'
  exact EstadoMensaje.noConfusion hp'

/-- Witness for C3: in `stC1m` made of one already-notified cart, a sweep
sends nothing to it. -/
theorem sweep_sends_only_overdue_pending_witness :
    (0, (⟨shop1.whatsapp, "whatsapp:+111",
        reminderText "Zapatillas" "https://shop.example/r0"⟩ : SendEv)) ∉
      (sweep sendOkTrue 3600000
        ⟨[("t1", shop1)], [setEnviado cart0C1], []⟩).2.1 :=
  (sweep_sends_only_overdue_pending sendOkTrue 3600000
      ⟨[("t1", shop1)], [setEnviado cart0C1], []⟩).2 0 (setEnviado cart0C1)
    (by decide) (by decide) _

/-- Claim C4: for each cart the sweep looked at, the cart's stored state is
set to `reminder_sent` exactly when the sweep recorded a successful send for
it; a cart with no successful send (its own send failed, it was skipped, or
the run aborted before reaching it) keeps exactly its previous record, so a
pending cart stays pending and eligible for the next run — the state update
never precedes or survives a failed send. -/
theorem sweep_update_iff_send_success
    (sendOk : String → String → String → Bool) (now : Int) (st : Store)
    (i : Nat) (c : Cart) (hc : st.carritos[i]? = some c) :
    ((∃ ev, (i, ev) ∈ (sweep sendOk now st).2.1) →
      (sweep sendOk now st).1.carritos[i]? = some (setEnviado c)) ∧
    ((∀ ev : SendEv, (i, ev) ∉ (sweep sendOk now st).2.1) →
      (sweep sendOk now st).1.carritos[i]? = some c) := by
  obtain ⟨new, hnew, hprop⟩ := sweepLoop_effect sendOk (sweepSnapshot now st) st []
  have hnew' : (sweep sendOk now st).2.1 = new := by simpa [sweep] using hnew
  rcases hprop i c hc with ⟨h1, h2⟩ | ⟨h1, ev, hev⟩
  · constructor
    · rintro ⟨ev, hev⟩
      rw [hnew'] at hev
      exact absurd hev (h2 ev)
    · intro _
      simpa [sweep] using h1
  · constructor
    · intro _
      simpa [sweep] using h1
    · intro hno
      exact absurd (show (i, ev) ∈ (sweep sendOk now st).2.1 from by
        rw [hnew']; exact hev) (hno ev)

/-- Witness for C4: in `stC1` with an always-succeeding gateway, cart 0's
send is recorded and its stored state becomes `recordatorio_enviado`. -/
theorem sweep_update_iff_send_success_witness :
    (sweep sendOkTrue 3600000 stC1).1.carritos[0]? = some (setEnviado cart0C1) :=
  (sweep_update_iff_send_success sendOkTrue 3600000 stC1 0 cart0C1 (by decide)).1
    ⟨⟨shop1.whatsapp, "whatsapp:+111",
      reminderText "Zapatillas" "https://shop.example/r0"⟩, by decide⟩

/-- Claim C2: state-transition invariants of the three core operations.
The cart-abandoned handler leaves every existing cart record untouched (it
only appends); the pedido-creado handler either leaves a cart unchanged or
flips `recuperado` from `false` to `true`, never touching `estadoMensaje`;
the sweep either leaves a cart unchanged or moves `estadoMensaje` from
`pendiente` to `recordatorio_enviado`, never touching `recuperado`.  Hence
`recovered` only ever goes false→true, `messageState` only ever goes
pending→reminder_sent, and that transition is performed only by the
scheduler. -/
theorem cart_state_transitions_monotone :
    (∀ (tiendaId : String) (req : CartReq) (now : Int) (st : Store) (i : Nat)
        (c c' : Cart), st.carritos[i]? = some c →
      (carritoAbandonadoHandler tiendaId req now st).2.carritos[i]? = some c' →
      c' = c) ∧
    (∀ (tiendaId : String) (telOpt : Option String) (st : Store) (i : Nat)
        (c c' : Cart), st.carritos[i]? = some c →
      (pedidoCreadoHandler tiendaId telOpt st).2.carritos[i]? = some c' →
      c'.estadoMensaje = c.estadoMensaje ∧
        (c' = c ∨ (c.recuperado = false ∧ c' = { c with recuperado := true }))) ∧
    (∀ (sendOk : String → String → String → Bool) (now : Int) (st : Store)
        (i : Nat) (c c' : Cart), st.carritos[i]? = some c →
      (sweep sendOk now st).1.carritos[i]? = some c' →
      c'.recuperado = c.recuperado ∧
        (c' = c ∨ (c.estadoMensaje = .pendiente ∧ c' = setEnviado c))) := by
  refine ⟨?_, ?_, ?_⟩
  · intro tid req now st i c c' hc hc'
    have hcases : (carritoAbandonadoHandler tid req now st).2.carritos =
          st.carritos ∨
        ∃ cart, (carritoAbandonadoHandler tid req now st).2.carritos =
          st.carritos ++ [cart] := by
      obtain ⟨tel, url, prods⟩ := req
      cases tel with
      | none => exact Or.inl rfl
      | some t =>
        cases url with
        | none => exact Or.inl rfl
        | some u =>
          cases prods with
          | none => exact Or.inl rfl
          | some ps =>
            by_cases ht : t = ""
            · exact Or.inl (by simp [carritoAbandonadoHandler, ht])
            · by_cases hu : u = ""
              · exact Or.inl (by simp [carritoAbandonadoHandler, ht, hu])
              · exact Or.inr ⟨⟨tid, normalizePhone t, ps, u, now, false,
                  .pendiente⟩, by simp [carritoAbandonadoHandler, ht, hu]⟩
    have hlt : i < st.carritos.length := (List.getElem?_eq_some.mp hc).1
    rcases hcases with he | ⟨cart, he⟩
    · rw [he, hc] at hc'
      exact (Option.some.inj hc').symm
    · rw [he, List.getElem?_append_left hlt, hc] at hc'
      exact (Option.some.inj hc').symm
  · intro tid telOpt st i c c' hc hc'
    cases telOpt with
    | none =>
      have hid : (pedidoCreadoHandler tid none st).2 = st := rfl
      rw [hid, hc] at hc'
      obtain rfl := Option.some.inj hc'
      exact ⟨rfl, Or.inl rfl⟩
    | some tel =>
      by_cases ht : tel = ""
      · have hid : (pedidoCreadoHandler tid (some tel) st).2 = st := by
          simp [pedidoCreadoHandler, ht]
        rw [hid, hc] at hc'
        obtain rfl := Option.some.inj hc'
        exact ⟨rfl, Or.inl rfl⟩
      · cases hU : updateFirst (matchPendingCart tid (normalizePhone tel))
            (fun c => { c with recuperado := true }) st.carritos with
        | none =>
          have hid : (pedidoCreadoHandler tid (some tel) st).2 = st := by
            simp [pedidoCreadoHandler, ht, hU]
          rw [hid, hc] at hc'
          obtain rfl := Option.some.inj hc'
          exact ⟨rfl, Or.inl rfl⟩
        | some cs =>
          have hres : (pedidoCreadoHandler tid (some tel) st).2.carritos = cs := by
            simp [pedidoCreadoHandler, ht, hU]
          rw [hres] at hc'
          rcases updateFirst_getElem? hU i with h1 | ⟨d, hd1, hd2, hd3⟩
          · rw [h1, hc] at hc'
            obtain rfl := Option.some.inj hc'
            exact ⟨rfl, Or.inl rfl⟩
          · rw [hc] at hd1
            obtain rfl := Option.some.inj hd1
            rw [hd3] at hc'
            obtain rfl := Option.some.inj hc'
            have hrec : c.recuperado = false := by
              simp [matchPendingCart] at hd2
              exact hd2.2
            exact ⟨rfl, Or.inr ⟨hrec, rfl⟩⟩
  · intro sendOk now st i c c' hc hc'
    obtain ⟨new, hnew, hprop⟩ :=
      sweepLoop_effect sendOk (sweepSnapshot now st) st []
    have hc'' : (sweepLoop sendOk (sweepSnapshot now st) st []).1.carritos[i]? =
        some c' := hc'
    rcases hprop i c hc with ⟨h1, _⟩ | ⟨h1, ev, hev⟩
    · rw [h1] at hc''
      obtain rfl := Option.some.inj hc''
      exact ⟨rfl, Or.inl rfl⟩
    · rw [h1] at hc''
      obtain rfl := Option.some.inj hc''
      have hmem : (i, ev) ∈ (sweepLoop sendOk (sweepSnapshot now st) st []).2.1 := by
        rw [hnew]
        simpa using hev
      rcases sweepLoop_sends sendOk (sweepSnapshot now st) st [] i ev hmem with
        habs | ⟨csnap, hcs, _⟩
      · simp at habs
      · obtain ⟨hg, hp, _⟩ := sweepSnapshot_mem hcs
        rw [hc] at hg
        obtain rfl := Option.some.inj hg
        exact ⟨rfl, Or.inr ⟨hp, rfl⟩⟩

/-- Witness for C2 at concrete inputs: the pedido-creado handler on `stC1`
flips only `recuperado` of the matching cart; the sweep on `stC1` moves
cart 1 from `pendiente` to `recordatorio_enviado`; the cart-abandoned
handler leaves the pre-existing cart 0 untouched. -/
theorem cart_state_transitions_monotone_witness :
    (({ cart0C1 with recuperado := true } : Cart).estadoMensaje =
        cart0C1.estadoMensaje ∧
      (({ cart0C1 with recuperado := true } : Cart) = cart0C1 ∨
        (cart0C1.recuperado = false ∧
          ({ cart0C1 with recuperado := true } : Cart) =
            { cart0C1 with recuperado := true }))) ∧
    ((setEnviado cart1C1).recuperado = cart1C1.recuperado ∧
      (setEnviado cart1C1 = cart1C1 ∨
        (cart1C1.estadoMensaje = .pendiente ∧
          setEnviado cart1C1 = setEnviado cart1C1))) ∧
    cart0C1 = cart0C1 :=
  ⟨cart_state_transitions_monotone.2.1 "t1" (some "111") stC1 0 cart0C1
      { cart0C1 with recuperado := true } (by decide) (by decide),
    cart_state_transitions_monotone.2.2 sendOkTrue 3600000 stC1 1 cart1C1
      (setEnviado cart1C1) (by decide) (by decide),
    cart_state_transitions_monotone.1 "t1" reqEmptyItems 0 stC1 0 cart0C1
      cart0C1 (by decide) (by decide)⟩

end Backend
